import Mathlib

/-!
# Verification of the ponkey language front end

A shallow embedding of the scanner (`src/ponkey/tokenizer.py`), the token
model (`src/ponkey/token.py`), the syntax-tree node model
(`src/ponkey/ast.py`), the exception class
(`ponkey/src/ponkey/exception.py`) and the parser
(`src/ponkey/parser.py`), together with theorems settling the claims of
the specification against that code.

Conventions of the embedding:
* Python strings are `String` (payloads) and `List Char` (scanner input).
* `None`-able values are `Option`.
* A raised exception is an `Except.error` carrying a `PyErr`; code that
  cannot raise stays pure.
* The two loops of the parser that can genuinely run forever
  (`parse_let_statement` / `parse_return_statement` token skipping, and
  the `parse_program` statement loop) take a fuel parameter; `PRes.diverge`
  marks fuel exhaustion.  The scanner's three loops always terminate, so
  they are given the exact bound `input.length + 1 - position`, which under
  the cursor invariants carried by `Tokenizer` reproduces the Python loop
  on every state.
-/

/-- A raised Python exception: the class and its rendered message. -/
inductive PyErr where
  | valueError (msg : String)
  | typeError (msg : String)
  | attributeError (msg : String)
deriving DecidableEq, Repr

/-- The token-kind enumeration `TokenType` of `src/ponkey/token.py`. -/
inductive TokenType where
  | ASSIGN | PLUS | MINUS | BANG | ASTERISK | SLASH | LT | GT | EQ | NEQ
  | FUNCTION | LET | TRUE | FALSE | IF | ELSE | RETURN
  | INT | LPAREN | RPAREN | LBRACE | RBRACE
  | SEMICOLON | COMMA
  | IDENT | EOF | ILLEGAL
deriving DecidableEq, Repr

/-- The `StrEnum` payload of each `TokenType` member; Python renders a
member as this string, and compares a member with a `str` by it. -/
def TokenType.value : TokenType → String
  | .ASSIGN => "="
  | .PLUS => "+"
  | .MINUS => "-"
  | .BANG => "!"
  | .ASTERISK => "*"
  | .SLASH => "/"
  | .LT => "<"
  | .GT => ">"
  | .EQ => "=="
  | .NEQ => "!="
  | .FUNCTION => "func"
  | .LET => "let"
  | .TRUE => "true"
  | .FALSE => "false"
  | .IF => "if"
  | .ELSE => "else"
  | .RETURN => "return"
  | .INT => "INT"
  | .LPAREN => "("
  | .RPAREN => ")"
  | .LBRACE => "\x7b"
  | .RBRACE => "\x7d"
  | .SEMICOLON => ";"
  | .COMMA => ","
  | .IDENT => "IDENT"
  | .EOF => ""
  | .ILLEGAL => "ILLEGAL"

/-- The `Token` dataclass: a kind and its literal text. -/
structure Token where
  type : TokenType
  literal : String
deriving DecidableEq, Repr

/-- `Token.lookup_table`: keyword classification via `PreservedKeywords`. -/
def Token.lookup_table (literal : String) : TokenType :=
  if literal = "func" then .FUNCTION
  else if literal = "let" then .LET
  else if literal = "true" then .TRUE
  else if literal = "false" then .FALSE
  else if literal = "if" then .IF
  else if literal = "else" then .ELSE
  else if literal = "return" then .RETURN
  else .IDENT

/-- The `Tokenizer` dataclass of `src/ponkey/tokenizer.py`.  The two proof
fields record the cursor invariants that `read_char` (the only mutator of
`position`, `read_position` and `ch`) establishes and preserves; every
state of the Python object after `__post_init__` satisfies them. -/
structure Tokenizer where
  input : List Char
  position : Nat
  read_position : Nat
  ch : Option Char
  hrp : read_position = position + 1
  hch : ch = input.get? position

/-- `Tokenizer(input)` followed by `__post_init__`, which runs `read_char`
once from `position = 0`, `read_position = 0`. -/
def Tokenizer.init (input : List Char) : Tokenizer :=
  { input := input, position := 0, read_position := 1, ch := input.get? 0,
    hrp := rfl, hch := rfl }

/-- `Tokenizer.read_char`: load the character at `read_position` (or `None`
past the end) and advance the cursor. -/
def Tokenizer.read_char (t : Tokenizer) : Tokenizer :=
  { input := t.input, position := t.read_position,
    read_position := t.read_position + 1, ch := t.input.get? t.read_position,
    hrp := rfl, hch := rfl }

/-- `Tokenizer.peek_char`: the character at `read_position`, or `None` when
`read_position` is past the end. -/
def Tokenizer.peek_char (t : Tokenizer) : Option Char :=
  t.input.get? t.read_position

/-- The whitespace characters of `Tokenizer.WHITESPACES`. -/
def Tokenizer.WHITESPACES : List Char := [' ', '\t', '\n', '\r']

/-- The character class of `_is_letter` (ASCII letter or underscore),
on a present character. -/
def isLetterB (c : Char) : Bool :=
  (('a'.toNat ≤ c.toNat && c.toNat ≤ 'z'.toNat) ||
   ('A'.toNat ≤ c.toNat && c.toNat ≤ 'Z'.toNat)) || c = '_'

/-- The character class of `_is_number` (ASCII digit), on a present
character. -/
def isDigitB (c : Char) : Bool :=
  '0'.toNat ≤ c.toNat && c.toNat ≤ '9'.toNat

/-- The loop of `_skip_whitespace`: advance while `ch` is whitespace (a
`None` value of `ch` is not in the list, so it stops the loop).  The bound
argument is `input.length + 1 - position` at entry; under the cursor
invariants the loop body can run at most that often, and when the bound is
`0` the cursor is past the end, where the Python loop exits at once. -/
def Tokenizer.skipWsGo : Nat → Tokenizer → Tokenizer
  | 0, t => t
  | n + 1, t =>
    match t.ch with
    | some c => if c ∈ Tokenizer.WHITESPACES then Tokenizer.skipWsGo n t.read_char else t
    | none => t

/-- `Tokenizer._skip_whitespace`. -/
def Tokenizer._skip_whitespace (t : Tokenizer) : Tokenizer :=
  Tokenizer.skipWsGo (t.input.length + 1 - t.position) t

/-- The loop of `read_identifier`: advance while `_is_letter(ch)`;
`_is_letter(None)` raises `ValueError("ch is None")`.  When the bound is
`0` the cursor is past the end, so `ch` is `None` and the guard raises,
exactly as the `0` case does. -/
def Tokenizer.readIdentGo : Nat → Tokenizer → Except PyErr Tokenizer
  | 0, _ => .error (.valueError "ch is None")
  | n + 1, t =>
    match t.ch with
    | none => .error (.valueError "ch is None")
    | some c => if isLetterB c then Tokenizer.readIdentGo n t.read_char else .ok t

/-- `Tokenizer.read_identifier`: the letter run from `position`, returned
as the slice `input[start_position : position]`. -/
def Tokenizer.read_identifier (t : Tokenizer) : Except PyErr (String × Tokenizer) :=
  match Tokenizer.readIdentGo (t.input.length + 1 - t.position) t with
  | .error e => .error e
  | .ok t' => .ok (⟨(t.input.drop t.position).take (t'.position - t.position)⟩, t')

/-- The loop of `read_number`, with the same raising guard as
`read_identifier` but for `_is_number`. -/
def Tokenizer.readNumGo : Nat → Tokenizer → Except PyErr Tokenizer
  | 0, _ => .error (.valueError "ch is None")
  | n + 1, t =>
    match t.ch with
    | none => .error (.valueError "ch is None")
    | some c => if isDigitB c then Tokenizer.readNumGo n t.read_char else .ok t

/-- `Tokenizer.read_number`. -/
def Tokenizer.read_number (t : Tokenizer) : Except PyErr (String × Tokenizer) :=
  match Tokenizer.readNumGo (t.input.length + 1 - t.position) t with
  | .error e => .error e
  | .ok t' => .ok (⟨(t.input.drop t.position).take (t'.position - t.position)⟩, t')

/-- `Tokenizer.next_token`.  The `=` / `!` EQ and NEQ branches build their
literal as `ch + self.ch` after one `read_char`; were that `self.ch`
`None`, the Python concatenation would raise `TypeError`, hence the
matching error branches. -/
def Tokenizer.next_token (t0 : Tokenizer) : Except PyErr (Token × Tokenizer) :=
  let t := t0._skip_whitespace
  match t.ch with
  | some '=' =>
    if t.peek_char = some '=' then
      let t1 := t.read_char
      match t1.ch with
      | some c2 => .ok (⟨.EQ, ⟨['=', c2]⟩⟩, t1.read_char)
      | none => .error (.typeError "can only concatenate str (not NoneType) to str")
    else .ok (⟨.ASSIGN, "="⟩, t.read_char)
  | some '+' => .ok (⟨.PLUS, "+"⟩, t.read_char)
  | some '-' => .ok (⟨.MINUS, "-"⟩, t.read_char)
  | some '!' =>
    if t.peek_char = some '=' then
      let t1 := t.read_char
      match t1.ch with
      | some c2 => .ok (⟨.NEQ, ⟨['!', c2]⟩⟩, t1.read_char)
      | none => .error (.typeError "can only concatenate str (not NoneType) to str")
    else .ok (⟨.BANG, "!"⟩, t.read_char)
  | some '*' => .ok (⟨.ASTERISK, "*"⟩, t.read_char)
  | some '/' => .ok (⟨.SLASH, "/"⟩, t.read_char)
  | some '<' => .ok (⟨.LT, "<"⟩, t.read_char)
  | some '>' => .ok (⟨.GT, ">"⟩, t.read_char)
  | some '(' => .ok (⟨.LPAREN, "("⟩, t.read_char)
  | some ')' => .ok (⟨.RPAREN, ")"⟩, t.read_char)
  | some '\x7b' => .ok (⟨.LBRACE, "\x7b"⟩, t.read_char)
  | some '\x7d' => .ok (⟨.RBRACE, "\x7d"⟩, t.read_char)
  | some ',' => .ok (⟨.COMMA, ","⟩, t.read_char)
  | some ';' => .ok (⟨.SEMICOLON, ";"⟩, t.read_char)
  | none => .ok (⟨.EOF, ""⟩, t.read_char)
  | some c =>
    if isLetterB c then
      match t.read_identifier with
      | .error e => .error e
      | .ok (lit, t') => .ok (⟨Token.lookup_table lit, lit⟩, t')
    else if isDigitB c then
      match t.read_number with
      | .error e => .error e
      | .ok (lit, t') => .ok (⟨.INT, lit⟩, t')
    else .ok (⟨.ILLEGAL, ⟨[c]⟩⟩, t.read_char)

/-- Validity-and-value automaton for the digit part of Python `int(str)`:
digits with single underscores strictly between digits.  `lastDigit`
records whether the previous character was a digit. -/
def pyDigitsGo : List Char → Bool → Nat → Option Nat
  | [], lastDigit, acc => if lastDigit then some acc else none
  | c :: cs, lastDigit, acc =>
    if isDigitB c then pyDigitsGo cs true (acc * 10 + (c.toNat - '0'.toNat))
    else if c = '_' then (if lastDigit then pyDigitsGo cs false acc else none)
    else none

/-- A model of Python `int(str)` on ASCII text: optional surrounding
whitespace, an optional sign, then a nonempty digit run with single
underscores between digits; `none` models the `ValueError` raised on any
other shape. -/
def pythonInt (s : String) : Option Int :=
  let core := (s.data.dropWhile (· ∈ Tokenizer.WHITESPACES)).reverse.dropWhile
      (· ∈ Tokenizer.WHITESPACES) |>.reverse
  match core with
  | '+' :: rest => (pyDigitsGo rest false 0).map (fun n => (n : Int))
  | '-' :: rest => (pyDigitsGo rest false 0).map (fun n => -(n : Int))
  | rest => (pyDigitsGo rest false 0).map (fun n => (n : Int))

/-- The `Identifier` node: an `IDENT` token and its owned string value
(the kind check of its constructor lives in `Identifier.mk?`). -/
structure Identifier where
  token : Token
  value : String
deriving DecidableEq, Repr

/-- The `IntegerLiteral` node: an `INT` token and its optional parsed
value. -/
structure IntegerLiteral where
  token : Token
  value : Option Int
deriving DecidableEq, Repr

/-- The closed set of `Expression` variants defined in `src/ponkey/ast.py`
(`PrefixExpression` and `InfixExpression` do not exist there). -/
inductive Expression where
  | ident (i : Identifier)
  | intLit (il : IntegerLiteral)
deriving DecidableEq, Repr

/-- The closed set of `Statement` variants of `src/ponkey/ast.py`. -/
inductive Statement where
  | letStmt (token : Token) (name : Option Identifier) (value : Option Expression)
  | returnStmt (token : Token) (return_value : Option Expression)
  | exprStmt (token : Option Token) (expression : Option Expression)
deriving DecidableEq, Repr

/-- The `Program` root node. -/
structure Program where
  statements : List Statement
deriving DecidableEq, Repr

/-- `Identifier.__init__`: raises `ValueError` unless `token.type` is
`TokenType.IDENT`. -/
def Identifier.mk? (token : Token) (value : String) : Except PyErr Identifier :=
  if token.type = .IDENT then .ok ⟨token, value⟩
  else .error (.valueError ("token.type is not TokenType.IDENT " ++ TokenType.IDENT.value))

/-- `IntegerLiteral.__init__`: raises `ValueError` unless `token.type` is
`TokenType.INT`. -/
def IntegerLiteral.mk? (token : Token) (value : Option Int) : Except PyErr IntegerLiteral :=
  if token.type = .INT then .ok ⟨token, value⟩
  else .error (.valueError ("token.type is not TokenType.INT " ++ TokenType.INT.value))

/-- `LetStatement.__init__`: raises `ValueError` unless `token.literal`
equals the `StrEnum` member `TokenType.LET`, i.e. the string `"let"` (the
literal, not the kind, is compared). -/
def LetStatement.mk? (token : Token) (name : Option Identifier)
    (value : Option Expression) : Except PyErr Statement :=
  if token.literal = TokenType.LET.value then .ok (.letStmt token name value)
  else .error (.valueError ("token.literal is not TokenType.LET " ++ TokenType.LET.value))

/-- `ReturnStatement.__init__`: raises `ValueError` unless `token.literal`
equals the string value of `TokenType.RETURN`. -/
def ReturnStatement.mk? (token : Token) : Except PyErr Statement :=
  if token.literal = TokenType.RETURN.value then .ok (.returnStmt token none)
  else .error (.valueError ("token.literal is not TokenType.RETURN " ++ TokenType.RETURN.value))

/-- `string()` of the two expression variants: an `Identifier` renders its
value, an `IntegerLiteral` its token literal. -/
def Expression.string : Expression → String
  | .ident i => i.value
  | .intLit il => il.token.literal

/-- `string()` of the statement variants.  `LetStatement.string` raises
`ValueError` when `name` is `None`; a `None` value contributes nothing.
`ReturnStatement.string` appends the value (if any) and `;` directly to
the token literal.  `ExpressionStatement.string` is empty for an absent
expression. -/
def Statement.string : Statement → Except PyErr String
  | .letStmt token name value =>
    match name with
    | none => .error (.valueError "self.name is None")
    | some n =>
      .ok (token.literal ++ " " ++ n.value ++ " = " ++
        (match value with | some v => v.string | none => "") ++ ";")
  | .returnStmt token rv =>
    .ok (token.literal ++ (match rv with | some v => v.string | none => "") ++ ";")
  | .exprStmt _ e => .ok (match e with | some v => v.string | none => "")

/-- The string join of `Program.string`, raising if any statement does. -/
def stringJoin : List Statement → Except PyErr String
  | [] => .ok ""
  | s :: rest =>
    match s.string with
    | .error e => .error e
    | .ok str =>
      match stringJoin rest with
      | .error e => .error e
      | .ok r => .ok (str ++ r)

/-- `Program.string`: concatenation of the statements' renderings. -/
def Program.string (prog : Program) : Except PyErr String :=
  stringJoin prog.statements

/-- The `UnexpectedToken` exception class of
`ponkey/src/ponkey/exception.py`: `__init__` takes the expected and the
encountered token kind (both positional and required). -/
structure UnexpectedToken where
  expected : TokenType
  got : TokenType
deriving DecidableEq, Repr

/-- `UnexpectedToken.__str__`; the f-string renders each `StrEnum` member
as its string value. -/
def UnexpectedToken.render (e : UnexpectedToken) : String :=
  "expected next token to be " ++ e.expected.value ++ ", got " ++ e.got.value ++ " instead"

/-- Tags for the bound methods that `Parser.__init__` stores in its
`prefix_parse_functions` dict (only `parse_identifier` and
`parse_integer_literal` are ever registered). -/
inductive PrefixFnTag where
  | identifierFn
  | integerLiteralFn
deriving DecidableEq, Repr

/-- Tags for values of the `infix_parse_functions` dict.  The source
defines no infix parse function anywhere and never calls
`register_infix`, so there is no tag to define; the dict is typed as in
the source and stays empty. -/
inductive InfixFnTag : Type
deriving DecidableEq, Repr

/-- Dict lookup (`dict.get`) on the handler tables. -/
def lookupFn {α : Type} : List (TokenType × α) → TokenType → Option α
  | [], _ => none
  | (k, v) :: rest, tt => if k = tt then some v else lookupFn rest tt

/-- The `Precedence` IntEnum. -/
abbrev Precedence := Nat

/-- `Precedence.LOWEST`. -/
def Precedence.LOWEST : Precedence := 1

/-- `Precedence.EQUALS`. -/
def Precedence.EQUALS : Precedence := 2

/-- `Precedence.LESSGREATER`. -/
def Precedence.LESSGREATER : Precedence := 3

/-- `Precedence.SUM`. -/
def Precedence.SUM : Precedence := 4

/-- `Precedence.PRODUCT`. -/
def Precedence.PRODUCT : Precedence := 5

/-- `Precedence.PREFIX_OP` (the member written `PREFIX` in the source). -/
def Precedence.PREFIX_OP : Precedence := 6

/-- `Precedence.CALL`. -/
def Precedence.CALL : Precedence := 7

/-- The `Parser` object state: its tokenizer, the accumulated
`errors` list, the two lookahead slots and the two handler dicts. -/
structure Parser where
  tokenizer : Tokenizer
  errors : List UnexpectedToken
  current_token : Option Token
  peek_token : Option Token
  prefix_parse_functions : List (TokenType × PrefixFnTag)
  infix_parse_functions : List (TokenType × InfixFnTag)

/-- `Parser.next_token`: shift `peek_token` into `current_token` and pull
a fresh token from the tokenizer (whose exception, if any, propagates). -/
def Parser.next_token (p : Parser) : Except PyErr Parser :=
  match p.tokenizer.next_token with
  | .error e => .error e
  | .ok (tok, tz) =>
    .ok { p with tokenizer := tz, current_token := p.peek_token, peek_token := some tok }

/-- `Parser.__init__`: register the two prefix handlers, then
`_init_tokens` primes both lookahead slots with two `next_token` calls. -/
def Parser.init (tz : Tokenizer) : Except PyErr Parser :=
  let p : Parser :=
    { tokenizer := tz, errors := [], current_token := none, peek_token := none,
      prefix_parse_functions := [(.IDENT, .identifierFn), (.INT, .integerLiteralFn)],
      infix_parse_functions := [] }
  match p.next_token with
  | .error e => .error e
  | .ok p1 => p1.next_token

/-- `Parser.peek_token_is`: raises when `peek_token` is `None`. -/
def Parser.peek_token_is (p : Parser) (token_type : TokenType) : Except PyErr Bool :=
  match p.peek_token with
  | none => .error (.valueError "peek_token is None")
  | some pk => .ok (pk.type = token_type)

/-- `Parser.expect_peek`: on a kind match advance and succeed, else append
the `UnexpectedToken(token_type, peek.type)` diagnostic (`peek_error`) and
fail without advancing. -/
def Parser.expect_peek (p : Parser) (token_type : TokenType) : Except PyErr (Bool × Parser) :=
  match p.peek_token with
  | none => .error (.valueError "peek_token is None")
  | some pk =>
    if pk.type = token_type then
      match p.next_token with
      | .error e => .error e
      | .ok p' => .ok (true, p')
    else .ok (false, { p with errors := p.errors ++ [⟨token_type, pk.type⟩] })

/-- `Parser.parse_identifier`: an `Identifier` leaf from the current
token. -/
def Parser.parse_identifier (p : Parser) : Except PyErr (Expression × Parser) :=
  match p.current_token with
  | none => .error (.valueError "current_token is None")
  | some cur =>
    match Identifier.mk? cur cur.literal with
    | .error e => .error e
    | .ok i => .ok (.ident i, p)

/-- `Parser.parse_integer_literal`.  When `int(...)` fails, the handler
`except ValueError` tries to build `UnexpectedToken` with a single
positional argument, but `UnexpectedToken.__init__` requires two, so that
branch raises `TypeError` instead of appending a diagnostic. -/
def Parser.parse_integer_literal (p : Parser) : Except PyErr (Expression × Parser) :=
  match p.current_token with
  | none => .error (.valueError "current_token is None")
  | some cur =>
    match IntegerLiteral.mk? cur none with
    | .error e => .error e
    | .ok lit0 =>
      match pythonInt cur.literal with
      | some v => .ok (.intLit { lit0 with value := some v }, p)
      | none =>
        .error (.typeError
          "UnexpectedToken.__init__() missing 1 required positional argument: got")

/-- `Parser.parse_expression`: look up the prefix handler for the current
token's kind, return `None` when there is none (no diagnostic), else
return that handler's expression.  The `precedence` argument is unused and
there is no infix loop. -/
def Parser.parse_expression (p : Parser) (precedence : Precedence) :
    Except PyErr (Option Expression × Parser) :=
  match p.current_token with
  | none => .error (.valueError "current_token is None")
  | some cur =>
    match lookupFn p.prefix_parse_functions cur.type with
    | none => .ok (none, p)
    | some .identifierFn =>
      match p.parse_identifier with
      | .error e => .error e
      | .ok (e, p') => .ok (some e, p')
    | some .integerLiteralFn =>
      match p.parse_integer_literal with
      | .error e => .error e
      | .ok (e, p') => .ok (some e, p')

/-- `Parser.parse_expression_statement`: capture the current token, parse
an expression at `LOWEST`, consume an optional trailing semicolon, and
always return the statement. -/
def Parser.parse_expression_statement (p : Parser) : Except PyErr (Option Statement × Parser) :=
  let tok := p.current_token
  match p.parse_expression Precedence.LOWEST with
  | .error e => .error e
  | .ok (eopt, p1) =>
    let stmt : Statement := .exprStmt tok eopt
    match p1.peek_token with
    | none => .error (.valueError "peek_token is None")
    | some pk =>
      if pk.type = .SEMICOLON then
        match p1.next_token with
        | .error e => .error e
        | .ok p2 => .ok (some stmt, p2)
      else .ok (some stmt, p1)

/-- A fuelled parser result: success, a raised exception, or fuel
exhaustion of a loop that Python would still be running. -/
inductive PRes (α : Type) where
  | ok (a : α)
  | err (e : PyErr)
  | diverge
deriving DecidableEq, Repr

/-- The `while self.current_token.type != TokenType.SEMICOLON` skip loop
shared by `parse_let_statement` and `parse_return_statement`.  Python
would raise `AttributeError` on a `None` current token; nothing bounds the
loop, so it takes fuel. -/
def Parser.skip_to_semicolon : Nat → Parser → PRes Parser
  | 0, _ => .diverge
  | fuel + 1, p =>
    match p.current_token with
    | none => .err (.attributeError "NoneType object has no attribute type")
    | some cur =>
      if cur.type = .SEMICOLON then .ok p
      else
        match p.next_token with
        | .error e => .err e
        | .ok p' => Parser.skip_to_semicolon fuel p'

/-- `Parser.parse_let_statement`: construct the node (validating the
token), require `IDENT` then `ASSIGN` via `expect_peek` (aborting with
`None` on failure), bind the name, then skip tokens up to the semicolon.
The bound value is never parsed. -/
def Parser.parse_let_statement (fuel : Nat) (p : Parser) : PRes (Option Statement × Parser) :=
  match p.current_token with
  | none => .err (.valueError "current_token is None")
  | some cur =>
    match LetStatement.mk? cur none none with
    | .error e => .err e
    | .ok _ =>
      match p.expect_peek .IDENT with
      | .error e => .err e
      | .ok (false, p1) => .ok (none, p1)
      | .ok (true, p1) =>
        match p1.current_token with
        | none => .err (.attributeError "NoneType object has no attribute literal")
        | some curId =>
          match Identifier.mk? curId curId.literal with
          | .error e => .err e
          | .ok nameId =>
            match p1.expect_peek .ASSIGN with
            | .error e => .err e
            | .ok (false, p2) => .ok (none, p2)
            | .ok (true, p2) =>
              match Parser.skip_to_semicolon fuel p2 with
              | .diverge => .diverge
              | .err e => .err e
              | .ok p3 => .ok (some (.letStmt cur (some nameId) none), p3)

/-- `Parser.parse_return_statement`: construct the node (validating the
token), then skip tokens up to the semicolon; the return value is never
parsed. -/
def Parser.parse_return_statement (fuel : Nat) (p : Parser) : PRes (Option Statement × Parser) :=
  match p.current_token with
  | none => .err (.valueError "current_token is None")
  | some cur =>
    match ReturnStatement.mk? cur with
    | .error e => .err e
    | .ok _ =>
      match Parser.skip_to_semicolon fuel p with
      | .diverge => .diverge
      | .err e => .err e
      | .ok p' => .ok (some (.returnStmt cur none), p')

/-- `Parser.parse_statement`: dispatch on the current token's kind. -/
def Parser.parse_statement (fuel : Nat) (p : Parser) : PRes (Option Statement × Parser) :=
  match p.current_token with
  | none => .err (.valueError "current_token is None")
  | some cur =>
    match cur.type with
    | .LET => p.parse_let_statement fuel
    | .RETURN => p.parse_return_statement fuel
    | _ =>
      match p.parse_expression_statement with
      | .error e => .err e
      | .ok r => .ok r

/-- `Parser._is_end_of_statement`: `True` when the current token is `None`
or `EOF`. -/
def Parser._is_end_of_statement (p : Parser) : Bool :=
  match p.current_token with
  | none => true
  | some t => t.type = .EOF

/-- The `while` loop of `parse_program`: parse a statement, append it when
present, advance, and stop at `EOF`; fuel bounds the iterations. -/
def Parser.parse_program_loop : Nat → Parser → Program → PRes (Program × Parser)
  | 0, _, _ => .diverge
  | fuel + 1, p, prog =>
    if p._is_end_of_statement then .ok (prog, p)
    else
      match p.parse_statement fuel with
      | .diverge => .diverge
      | .err e => .err e
      | .ok (stmtOpt, p1) =>
        let prog' : Program :=
          match stmtOpt with
          | some s => { statements := prog.statements ++ [s] }
          | none => prog
        match p1.next_token with
        | .error e => .err e
        | .ok p2 => Parser.parse_program_loop fuel p2 prog'

/-- `Parser.parse_program`, from an empty `Program`. -/
def Parser.parse_program (fuel : Nat) (p : Parser) : PRes (Program × Parser) :=
  Parser.parse_program_loop fuel p { statements := [] }

/-- Build a tokenizer and parser on `input` and run `parse_program`. -/
def runParser (fuel : Nat) (input : String) : PRes (Program × Parser) :=
  match Parser.init (Tokenizer.init input.data) with
  | .error e => .err e
  | .ok p => p.parse_program fuel

/-- The observable outcome of `runParser`: the program and the rendered
diagnostics list. -/
def runOut (fuel : Nat) (input : String) : PRes (Program × List String) :=
  match runParser fuel input with
  | .ok (prog, p) => .ok (prog, p.errors.map UnexpectedToken.render)
  | .err e => .err e
  | .diverge => .diverge

/-- `g` computes `x`: some fuel suffices and any larger fuel agrees. -/
def Computes {α : Type} (g : Nat → PRes α) (x : α) : Prop :=
  ∃ n, ∀ m, n ≤ m → g m = .ok x

/-- One unfolding of the `skip_to_semicolon` loop, for fuel-agreement
reasoning. -/
def skipBody (fuel : Nat) (p : Parser) : PRes Parser :=
  match p.current_token with
  | none => PRes.err (PyErr.attributeError "NoneType object has no attribute type")
  | some cur =>
    if cur.type = TokenType.SEMICOLON then PRes.ok p
    else
      match p.next_token with
      | Except.error e => PRes.err e
      | Except.ok p' => Parser.skip_to_semicolon fuel p'

/-- One unfolding of the `parse_program` loop, for fuel-agreement
reasoning. -/
def loopBody (fuel : Nat) (p : Parser) (prog : Program) : PRes (Program × Parser) :=
  if p._is_end_of_statement then PRes.ok (prog, p)
  else
    match p.parse_statement fuel with
    | PRes.diverge => PRes.diverge
    | PRes.err e => PRes.err e
    | PRes.ok (stmtOpt, p1) =>
      let prog' : Program :=
        match stmtOpt with
        | some s => { statements := prog.statements ++ [s] }
        | none => prog
      match p1.next_token with
      | Except.error e => PRes.err e
      | Except.ok p2 => Parser.parse_program_loop fuel p2 prog'

/-- Truth-value of an `Except` result (did construction succeed?). -/
def exOk {α : Type} : Except PyErr α → Bool
  | .ok _ => true
  | .error _ => false

/-- The parser state immediately after `Parser(Tokenizer("return )"))`:
current token `return`, peek token `)`, scanner at end of input. -/
def divState : Parser :=
  { tokenizer := { input := ("return )").data, position := 8, read_position := 9,
                   ch := none, hrp := rfl, hch := rfl },
    errors := [], current_token := some ⟨.RETURN, "return"⟩,
    peek_token := some ⟨.RPAREN, ")"⟩,
    prefix_parse_functions := [(.IDENT, .identifierFn), (.INT, .integerLiteralFn)],
    infix_parse_functions := [] }

/-- Invariant of a parser state whose skip-to-semicolon loop can never
stop: neither lookahead slot holds a semicolon and the scanner is past
the end of input (so it yields `EOF` forever). -/
def SkipInv (p : Parser) : Prop :=
  (∃ c, p.current_token = some c ∧ c.type ≠ TokenType.SEMICOLON) ∧
  (∃ u, p.peek_token = some u ∧ u.type ≠ TokenType.SEMICOLON) ∧
  p.tokenizer.ch = none

/-- The parser state immediately after `Parser(Tokenizer("1 + 2;"))`,
used to witness C2 at a concrete input. -/
def witState : Parser :=
  { tokenizer := { input := ("1 + 2;").data, position := 3, read_position := 4,
                   ch := some ' ', hrp := rfl, hch := rfl },
    errors := [], current_token := some ⟨.INT, "1"⟩,
    peek_token := some ⟨.PLUS, "+"⟩,
    prefix_parse_functions := [(.IDENT, .identifierFn), (.INT, .integerLiteralFn)],
    infix_parse_functions := [] }

/-- Repeated calls to `next_token`: `callN n t` is the result of the
`(n+1)`-st call, each call continuing from the state the previous one
returned. -/
def Tokenizer.callN : Nat → Tokenizer → Except PyErr (Token × Tokenizer)
  | 0, t => t.next_token
  | n + 1, t =>
    match t.next_token with
    | .error e => .error e
    | .ok (_, t') => Tokenizer.callN n t'

/-- The guard error of `parse_statement` and friends. -/
def guardCur : PyErr := .valueError "current_token is None"

/-- The guard error of `peek_token_is` / `peek_error`. -/
def guardPeek : PyErr := .valueError "peek_token is None"

/-- Both lookahead slots hold a token. -/
def Primed (p : Parser) : Prop :=
  p.current_token.isSome ∧ p.peek_token.isSome

/-- The parser state immediately after `Parser(Tokenizer(";"))`, used to
witness C10 at a concrete input. -/
def witState10 : Parser :=
  { tokenizer := { input := (";").data, position := 2, read_position := 3,
                   ch := none, hrp := rfl, hch := rfl },
    errors := [], current_token := some ⟨.SEMICOLON, ";"⟩,
    peek_token := some ⟨.EOF, ""⟩,
    prefix_parse_functions := [(.IDENT, .identifierFn), (.INT, .integerLiteralFn)],
    infix_parse_functions := [] }

theorem skip_eq (fuel : Nat) (p : Parser) :
    Parser.skip_to_semicolon (fuel + 1) p = skipBody fuel p := rfl

theorem skip_agree (fuel : Nat) (p : Parser) :
    Parser.skip_to_semicolon (fuel + 1) p = Parser.skip_to_semicolon fuel p ∨
      Parser.skip_to_semicolon fuel p = PRes.diverge := by
  induction fuel generalizing p with
  | zero => exact Or.inr rfl
  | succ fuel ih =>
    rw [skip_eq (fuel + 1) p, skip_eq fuel p]
    unfold skipBody
    split
    · exact Or.inl rfl
    · split
      · exact Or.inl rfl
      · split
        · exact Or.inl rfl
        · rename_i p' _
          exact ih p'

theorem parse_let_agree (fuel : Nat) (p : Parser) :
    Parser.parse_let_statement (fuel + 1) p = Parser.parse_let_statement fuel p ∨
      Parser.parse_let_statement fuel p = PRes.diverge := by
  unfold Parser.parse_let_statement
  split
  · exact Or.inl rfl
  · split
    · exact Or.inl rfl
    · split
      · exact Or.inl rfl
      · exact Or.inl rfl
      · split
        · exact Or.inl rfl
        · split
          · exact Or.inl rfl
          · split
            · exact Or.inl rfl
            · exact Or.inl rfl
            · rename_i p2 _
              rcases skip_agree fuel p2 with h | h
              · rw [h]
                exact Or.inl rfl
              · rw [h]
                exact Or.inr rfl

theorem parse_return_agree (fuel : Nat) (p : Parser) :
    Parser.parse_return_statement (fuel + 1) p = Parser.parse_return_statement fuel p ∨
      Parser.parse_return_statement fuel p = PRes.diverge := by
  unfold Parser.parse_return_statement
  split
  · exact Or.inl rfl
  · split
    · exact Or.inl rfl
    · rcases skip_agree fuel p with h | h
      · rw [h]
        exact Or.inl rfl
      · rw [h]
        exact Or.inr rfl

theorem parse_statement_agree (fuel : Nat) (p : Parser) :
    Parser.parse_statement (fuel + 1) p = Parser.parse_statement fuel p ∨
      Parser.parse_statement fuel p = PRes.diverge := by
  unfold Parser.parse_statement
  split
  · exact Or.inl rfl
  · split
    · exact parse_let_agree fuel p
    · exact parse_return_agree fuel p
    · exact Or.inl rfl

theorem loop_eq (fuel : Nat) (p : Parser) (prog : Program) :
    Parser.parse_program_loop (fuel + 1) p prog = loopBody fuel p prog := rfl

theorem parse_program_loop_agree (fuel : Nat) (p : Parser) (prog : Program) :
    Parser.parse_program_loop (fuel + 1) p prog = Parser.parse_program_loop fuel p prog ∨
      Parser.parse_program_loop fuel p prog = PRes.diverge := by
  induction fuel generalizing p prog with
  | zero => exact Or.inr rfl
  | succ fuel ih =>
    rw [loop_eq (fuel + 1) p prog, loop_eq fuel p prog]
    unfold loopBody
    split
    · exact Or.inl rfl
    · rcases parse_statement_agree fuel p with h | h
      · rw [h]
        split
        · exact Or.inr rfl
        · exact Or.inl rfl
        · dsimp only
          split
          · exact Or.inl rfl
          · rename_i stmtOpt p1 _ p2 _
            exact ih p2 _
      · rw [h]
        exact Or.inr rfl

theorem runOut_init_err (fuel : Nat) (s : String) (e : PyErr)
    (h : Parser.init (Tokenizer.init s.data) = Except.error e) :
    runOut fuel s = PRes.err e := by
  unfold runOut runParser
  rw [h]

theorem runOut_init_ok (fuel : Nat) (s : String) (p : Parser)
    (h : Parser.init (Tokenizer.init s.data) = Except.ok p) :
    runOut fuel s =
      (match Parser.parse_program_loop fuel p { statements := [] } with
        | PRes.ok (prog, q) => PRes.ok (prog, List.map UnexpectedToken.render q.errors)
        | PRes.err e => PRes.err e
        | PRes.diverge => PRes.diverge) := by
  unfold runOut runParser Parser.parse_program
  rw [h]

theorem runOut_agree (fuel : Nat) (s : String) :
    runOut (fuel + 1) s = runOut fuel s ∨ runOut fuel s = PRes.diverge := by
  cases hinit : Parser.init (Tokenizer.init s.data) with
  | error e =>
    rw [runOut_init_err (fuel + 1) s e hinit, runOut_init_err fuel s e hinit]
    exact Or.inl rfl
  | ok p =>
    rw [runOut_init_ok (fuel + 1) s p hinit, runOut_init_ok fuel s p hinit]
    rcases parse_program_loop_agree fuel p ⟨[]⟩ with h | h
    · rw [h]
      exact Or.inl rfl
    · rw [h]
      exact Or.inr rfl

theorem runOut_mono {n m : Nat} (hnm : n ≤ m) (s : String) (x : Program × List String)
    (h : runOut n s = PRes.ok x) : runOut m s = PRes.ok x := by
  induction m, hnm using Nat.le_induction with
  | base => exact h
  | succ m hm ih =>
    rcases runOut_agree m s with ha | ha
    · rw [ha]
      exact ih
    · rw [ih] at ha
      cases ha

theorem computes_runOut (n : Nat) (s : String) (x : Program × List String)
    (h : runOut n s = PRes.ok x) : Computes (fun m => runOut m s) x :=
  ⟨n, fun _ hm => runOut_mono hm s x h⟩

theorem skip_of_none (t : Tokenizer) (h : t.ch = none) : t._skip_whitespace = t := by
  rw [Tokenizer._skip_whitespace]
  cases hb : t.input.length + 1 - t.position with
  | zero => rfl
  | succ n =>
    unfold Tokenizer.skipWsGo
    rw [h]

theorem read_char_none (t : Tokenizer) (h : t.ch = none) : (t.read_char).ch = none := by
  have hp : t.input.length ≤ t.position := by
    have hc := t.hch
    rw [h] at hc
    exact List.get?_eq_none.mp hc.symm
  have : t.input.length ≤ t.read_position := by
    rw [t.hrp]
    omega
  show t.input.get? t.read_position = none
  exact List.get?_eq_none.mpr this

theorem eof_next (t : Tokenizer) (h : t.ch = none) :
    t.next_token = .ok (⟨.EOF, ""⟩, t.read_char) ∧ (t.read_char).ch = none := by
  refine ⟨?_, read_char_none t h⟩
  unfold Tokenizer.next_token
  rw [skip_of_none t h]
  simp only [h]

theorem skip_inv_step (p : Parser) (h : SkipInv p) :
    ∃ p', p.next_token = Except.ok p' ∧ SkipInv p' := by
  obtain ⟨⟨c, hc, hcs⟩, ⟨u, hu, hus⟩, htz⟩ := h
  obtain ⟨hnt, hch'⟩ := eof_next p.tokenizer htz
  refine ⟨{ p with tokenizer := p.tokenizer.read_char, current_token := p.peek_token, peek_token := some (Token.mk TokenType.EOF "") }, ?_, ?_⟩
  · unfold Parser.next_token
    rw [hnt]
  · exact ⟨⟨u, hu, hus⟩, ⟨Token.mk TokenType.EOF "", rfl, by decide⟩, hch'⟩

theorem skip_div (fuel : Nat) : ∀ p : Parser, SkipInv p →
    Parser.skip_to_semicolon fuel p = PRes.diverge := by
  induction fuel with
  | zero => intro p _; rfl
  | succ fuel ih =>
    intro p h
    obtain ⟨p', hnt, hinv'⟩ := skip_inv_step p h
    obtain ⟨⟨c, hc, hcs⟩, _, _⟩ := h
    rw [skip_eq]
    unfold skipBody
    rw [hc]
    simp only [hcs, if_false, ite_false]
    rw [hnt]
    exact ih p' hinv'

theorem return_nosemi_diverges (fuel : Nat) : runOut fuel "return )" = PRes.diverge := by
  cases fuel with
  | zero => rfl
  | succ fuel =>
    have hstmt : Parser.parse_statement fuel divState =
        (match Parser.skip_to_semicolon fuel divState with
          | PRes.diverge => PRes.diverge
          | PRes.err e => PRes.err e
          | PRes.ok p' =>
            PRes.ok (some (.returnStmt ⟨.RETURN, "return"⟩ none), p')) := rfl
    have hdiv : Parser.skip_to_semicolon fuel divState = PRes.diverge :=
      skip_div fuel divState
        ⟨⟨⟨.RETURN, "return"⟩, rfl, by decide⟩, ⟨⟨.RPAREN, ")"⟩, rfl, by decide⟩, rfl⟩
    have hstmt2 : Parser.parse_statement fuel divState = PRes.diverge := by
      rw [hstmt, hdiv]
    have hloop : Parser.parse_program_loop (fuel + 1) divState ⟨[]⟩ = PRes.diverge := by
      rw [loop_eq]
      unfold loopBody
      rw [if_neg (by decide)]
      rw [hstmt2]
    rw [runOut_init_ok (fuel + 1) "return )" divState rfl, hloop]

theorem parse_identifier_state (p : Parser) (e : Expression) (p' : Parser)
    (h : p.parse_identifier = Except.ok (e, p')) : p' = p := by
  unfold Parser.parse_identifier at h
  split at h
  · cases h
  · split at h
    · cases h
    · cases h
      rfl

theorem parse_integer_literal_state (p : Parser) (e : Expression) (p' : Parser)
    (h : p.parse_integer_literal = Except.ok (e, p')) : p' = p := by
  unfold Parser.parse_integer_literal at h
  split at h
  · cases h
  · split at h
    · cases h
    · split at h
      · cases h
        rfl
      · cases h

theorem parse_expression_state (p : Parser) (prec : Precedence) (out : Option Expression)
    (p' : Parser) (h : p.parse_expression prec = Except.ok (out, p')) : p' = p := by
  unfold Parser.parse_expression at h
  split at h
  · cases h
  · split at h
    · cases h
      rfl
    · split at h
      · cases h
      · cases h
        exact parse_identifier_state _ _ _ (by assumption)
    · split at h
      · cases h
      · cases h
        exact parse_integer_literal_state _ _ _ (by assumption)

theorem init_infix_empty (tz : Tokenizer) (p : Parser)
    (h : Parser.init tz = Except.ok p) : p.infix_parse_functions = [] := by
  unfold Parser.init at h
  dsimp only at h
  split at h
  · cases h
  · rename_i p1 h1
    unfold Parser.next_token at h h1
    split at h1
    · cases h1
    · split at h
      · cases h
      · cases h1
        cases h
        rfl

/-- C1 counterexample: on `let x = 5;` the parser leaves the let binding's
value absent (it skips to the semicolon instead of parsing `5`), and the
statement renders as `let x = ;`, not `let x = 5;`. -/
theorem claim_C1_counterexample :
    runOut 32 "let x = 5;" =
      PRes.ok (⟨[.letStmt ⟨.LET, "let"⟩ (some ⟨⟨.IDENT, "x"⟩, "x"⟩) none]⟩, []) ∧
    Program.string ⟨[.letStmt ⟨.LET, "let"⟩ (some ⟨⟨.IDENT, "x"⟩, "x"⟩) none]⟩ =
      Except.ok "let x = ;" ∧
    ("let x = ;" : String) ≠ "let x = 5;" :=
  ⟨rfl, rfl, by decide⟩

/-- C1 (amended): for `let x = 5;`, `parse_program` returns a `Program`
with exactly one `LetStatement` whose name has text `x`, whose value is
absent (the statement-value parse is skipped up to the semicolon), no
diagnostics, and whose `string()` rendering is `let x = ;`. -/
theorem claim_C1 :
    Computes (fun fuel => runOut fuel "let x = 5;")
      (⟨[.letStmt ⟨.LET, "let"⟩ (some ⟨⟨.IDENT, "x"⟩, "x"⟩) none]⟩, []) ∧
    Program.string ⟨[.letStmt ⟨.LET, "let"⟩ (some ⟨⟨.IDENT, "x"⟩, "x"⟩) none]⟩ =
      Except.ok "let x = ;" :=
  ⟨computes_runOut 32 _ _ rfl, rfl⟩

/-- C2 counterexample: after construction the infix handler table is
empty (none of `+ - * / < > == !=` is registered), and parsing `1 + 2;`
builds three separate expression statements instead of folding an infix
expression: the program is `[1, <empty>, 2]` with no diagnostics. -/
theorem claim_C2_counterexample :
    (Parser.init (Tokenizer.init ("1 + 2;").data)).map
        (fun p => p.infix_parse_functions) = Except.ok [] ∧
    runOut 32 "1 + 2;" =
      PRes.ok (⟨[.exprStmt (some ⟨.INT, "1"⟩) (some (.intLit ⟨⟨.INT, "1"⟩, some 1⟩)),
                 .exprStmt (some ⟨.PLUS, "+"⟩) none,
                 .exprStmt (some ⟨.INT, "2"⟩) (some (.intLit ⟨⟨.INT, "2"⟩, some 2⟩))]⟩,
                []) :=
  ⟨rfl, rfl⟩

/-- C2 (amended): `parse_expression` returns the prefix handler's result
(or absent) with no infix folding at all: the parser state is returned
unchanged, the minimum-precedence argument is ignored, and the infix
handler table of a constructed parser is empty. -/
theorem claim_C2 :
    (∀ tz p, Parser.init tz = Except.ok p → p.infix_parse_functions = []) ∧
    (∀ (p : Parser) (prec : Precedence) (out : Option Expression) (p' : Parser),
      p.parse_expression prec = Except.ok (out, p') → p' = p) ∧
    (∀ (p : Parser) (prec prec' : Precedence),
      p.parse_expression prec = p.parse_expression prec') :=
  ⟨init_infix_empty, parse_expression_state, fun _ _ _ => rfl⟩

/-- Witness for C2 at the concrete input `1 + 2;`. -/
theorem claim_C2_witness :
    witState.infix_parse_functions = [] ∧
    witState = witState ∧
    Parser.parse_expression witState Precedence.LOWEST =
      Parser.parse_expression witState Precedence.SUM :=
  ⟨claim_C2.1 (Tokenizer.init ("1 + 2;").data) witState rfl,
   claim_C2.2.1 witState Precedence.LOWEST
     (some (.intLit ⟨⟨.INT, "1"⟩, some 1⟩)) witState rfl,
   claim_C2.2.2 witState Precedence.LOWEST Precedence.SUM⟩

/-- C3: `parse_program` does not run to completion on every input: on
`"5"` (input ending inside a digit run) the scanner raises
`ValueError("ch is None")` for every fuel bound, and on `"return )"`
(return statement with no terminating semicolon) the skip loop runs
forever, exhausting every fuel bound. -/
theorem claim_C3 :
    (∀ fuel, runOut fuel "5" = PRes.err (.valueError "ch is None")) ∧
    (∀ fuel, runOut fuel "return )" = PRes.diverge) :=
  ⟨fun _ => rfl, return_nosemi_diverges⟩

/-- C4: on `let x 5;` the parser returns a program (no exception) and the
diagnostics list holds exactly one entry, rendering as
`expected next token to be =, got INT instead`. -/
theorem claim_C4 :
    Computes (fun fuel => runOut fuel "let x 5;")
      (⟨[.exprStmt (some ⟨.INT, "5"⟩) (some (.intLit ⟨⟨.INT, "5"⟩, some 5⟩))]⟩,
       ["expected next token to be =, got INT instead"]) :=
  computes_runOut 32 _ _ rfl

/-- C5: on the parser test input (which reaches `parse_expression` with
the handler-less `=` token) only the three `expect_peek` diagnostics are
produced; the diagnostic `no prefix parse function for = found` that the
repository's own test expects is never appended (the handler-less branch
returns `None` silently). -/
theorem claim_C5 :
    runOut 32 "let x 5;\nlet = 10;\nlet 838838;\n" =
      PRes.ok
        (⟨[.exprStmt (some ⟨.INT, "5"⟩) (some (.intLit ⟨⟨.INT, "5"⟩, some 5⟩)),
           .exprStmt (some ⟨.ASSIGN, "="⟩) none,
           .exprStmt (some ⟨.INT, "10"⟩) (some (.intLit ⟨⟨.INT, "10"⟩, some 10⟩)),
           .exprStmt (some ⟨.INT, "838838"⟩) (some (.intLit ⟨⟨.INT, "838838"⟩, some 838838⟩))]⟩,
         ["expected next token to be =, got INT instead",
          "expected next token to be IDENT, got = instead",
          "expected next token to be IDENT, got INT instead"]) ∧
    ("no prefix parse function for = found" : String) ∉
      (["expected next token to be =, got INT instead",
        "expected next token to be IDENT, got = instead",
        "expected next token to be IDENT, got INT instead"] : List String) :=
  ⟨rfl, by decide⟩

/-- C8: when the literal of the current `INT` token is not parseable as an
integer, `parse_integer_literal` raises `TypeError` (the `except` branch
calls `UnexpectedToken` with one argument where `__init__` requires two)
instead of appending the claimed diagnostic. -/
theorem claim_C8 (p : Parser) (t : Token) (hc : p.current_token = some t)
    (ht : t.type = TokenType.INT) (hp : pythonInt t.literal = none) :
    p.parse_integer_literal =
      Except.error (.typeError
        "UnexpectedToken.__init__() missing 1 required positional argument: got") := by
  unfold Parser.parse_integer_literal
  rw [hc]
  simp only [IntegerLiteral.mk?, ht, if_true, hp]

/-- Witness for C8 at the concrete token `Token(INT, "abc")`. -/
theorem claim_C8_witness :
    Parser.parse_integer_literal
      { tokenizer := Tokenizer.init [], errors := [],
        current_token := some ⟨.INT, "abc"⟩, peek_token := some ⟨.EOF, ""⟩,
        prefix_parse_functions := [(.IDENT, .identifierFn), (.INT, .integerLiteralFn)],
        infix_parse_functions := [] } =
      Except.error (.typeError
        "UnexpectedToken.__init__() missing 1 required positional argument: got") :=
  claim_C8 _ ⟨.INT, "abc"⟩ rfl rfl rfl

/-- C9 counterexample: `LetStatement` accepts the token
`Token(IDENT, "let")`, which is not of `LET` kind, and rejects
`Token(LET, "LET")`, which is: the constructors of `LetStatement` and
`ReturnStatement` validate the literal text, not the kind. -/
theorem claim_C9_counterexample :
    LetStatement.mk? ⟨.IDENT, "let"⟩ none none =
      Except.ok (.letStmt ⟨.IDENT, "let"⟩ none none) ∧
    TokenType.IDENT ≠ TokenType.LET ∧
    LetStatement.mk? ⟨.LET, "LET"⟩ none none =
      Except.error (.valueError "token.literal is not TokenType.LET let") :=
  ⟨rfl, by decide, rfl⟩

/-- C9 (amended): `Identifier` and `IntegerLiteral` accept a token exactly
when it has the required kind (`IDENT`, `INT`); `LetStatement` and
`ReturnStatement` instead accept a token exactly when its literal text is
the keyword (`"let"`, `"return"`), regardless of its kind. -/
theorem claim_C9 (t : Token) :
    (∀ name value, exOk (LetStatement.mk? t name value) = (t.literal == "let")) ∧
    exOk (ReturnStatement.mk? t) = (t.literal == "return") ∧
    (∀ v, exOk (Identifier.mk? t v) = (t.type == TokenType.IDENT)) ∧
    (∀ v, exOk (IntegerLiteral.mk? t v) = (t.type == TokenType.INT)) := by
  refine ⟨fun name value => ?_, ?_, fun v => ?_, fun v => ?_⟩ <;>
    simp only [LetStatement.mk?, ReturnStatement.mk?, Identifier.mk?, IntegerLiteral.mk?,
      TokenType.value] <;>
    split <;>
    simp_all [exOk]

theorem pos_lt_of_ch (t : Tokenizer) (c : Char) (h : t.ch = some c) :
    t.position < t.input.length := by
  have hc := t.hch
  rw [h] at hc
  obtain ⟨hlt, -⟩ := List.get?_eq_some.mp hc.symm
  exact hlt

theorem skip_of_nonws (t : Tokenizer) (c : Char) (h : t.ch = some c)
    (hw : c ∉ Tokenizer.WHITESPACES) : t._skip_whitespace = t := by
  rw [Tokenizer._skip_whitespace]
  have hlt : t.position < t.input.length := pos_lt_of_ch t c h
  obtain ⟨k, hk⟩ : ∃ k, t.input.length + 1 - t.position = k + 1 :=
    ⟨t.input.length - t.position, by omega⟩
  rw [hk]
  unfold Tokenizer.skipWsGo
  rw [h]
  simp only [hw, if_false, ite_false]

theorem read_char_ch_peek (t : Tokenizer) : (t.read_char).ch = t.peek_char := rfl

/-- C6: from any scanner state whose current character is `=`, the next
token is `EQ` with literal `==` when the following character is `=` and
`ASSIGN` with literal `=` otherwise; likewise `!` yields `NEQ` with
literal `!=` or `BANG` with literal `!`. -/
theorem claim_C6 (t : Tokenizer) :
    (t.ch = some '=' →
      (t.peek_char = some '=' →
        ∃ t', t.next_token = Except.ok (⟨.EQ, "=="⟩, t')) ∧
      (t.peek_char ≠ some '=' →
        ∃ t', t.next_token = Except.ok (⟨.ASSIGN, "="⟩, t'))) ∧
    (t.ch = some '!' →
      (t.peek_char = some '=' →
        ∃ t', t.next_token = Except.ok (⟨.NEQ, "!="⟩, t')) ∧
      (t.peek_char ≠ some '=' →
        ∃ t', t.next_token = Except.ok (⟨.BANG, "!"⟩, t'))) := by
  constructor
  · intro h
    have hs := skip_of_nonws t '=' h (by decide)
    constructor
    · intro hp
      refine ⟨(t.read_char).read_char, ?_⟩
      unfold Tokenizer.next_token
      rw [hs]
      simp only [h, hp, if_true, read_char_ch_peek]
    · intro hp
      refine ⟨t.read_char, ?_⟩
      unfold Tokenizer.next_token
      rw [hs]
      simp only [h, hp, if_false, ite_false]
  · intro h
    have hs := skip_of_nonws t '!' h (by decide)
    constructor
    · intro hp
      refine ⟨(t.read_char).read_char, ?_⟩
      unfold Tokenizer.next_token
      rw [hs]
      simp only [h, hp, if_true, read_char_ch_peek]
    · intro hp
      refine ⟨t.read_char, ?_⟩
      unfold Tokenizer.next_token
      rw [hs]
      simp only [h, hp, if_false, ite_false]

/-- Witness for C6 on the concrete inputs `==` and `!5`. -/
theorem claim_C6_witness :
    ((Tokenizer.init ("==".data)).ch = some '=' ∧
      ∃ t', (Tokenizer.init ("==".data)).next_token = Except.ok (⟨.EQ, "=="⟩, t')) ∧
    ((Tokenizer.init ("!5".data)).ch = some '!' ∧
      ∃ t', (Tokenizer.init ("!5".data)).next_token = Except.ok (⟨.BANG, "!"⟩, t')) :=
  ⟨⟨rfl, ((claim_C6 (Tokenizer.init ("==".data))).1 rfl).1 rfl⟩,
   ⟨rfl, ((claim_C6 (Tokenizer.init ("!5".data))).2 rfl).2 (by decide)⟩⟩

theorem skipWsGo_all_ws (n : Nat) : ∀ t : Tokenizer,
    (∀ c ∈ t.input, c ∈ Tokenizer.WHITESPACES) →
    t.input.length + 1 - t.position ≤ n →
    (Tokenizer.skipWsGo n t).ch = none := by
  induction n with
  | zero =>
    intro t hall hb
    have : t.input.length ≤ t.position := by omega
    show t.ch = none
    rw [t.hch]
    exact List.get?_eq_none.mpr (by omega)
  | succ n ih =>
    intro t hall hb
    unfold Tokenizer.skipWsGo
    cases hc : t.ch with
    | none => exact hc
    | some c =>
      have hx : t.input.get? t.position = some c := by
        rw [← t.hch]
        exact hc
      have hmem : c ∈ t.input := List.get?_mem hx
      have hws : c ∈ Tokenizer.WHITESPACES := hall c hmem
      simp only [hws, ite_true]
      have hlt : t.position < t.input.length := pos_lt_of_ch t c hc
      exact ih t.read_char hall (by show t.input.length + 1 - t.read_position ≤ n; rw [t.hrp]; omega)

theorem ws_skip_none (t : Tokenizer) (hall : ∀ c ∈ t.input, c ∈ Tokenizer.WHITESPACES) :
    (t._skip_whitespace).ch = none := by
  rw [Tokenizer._skip_whitespace]
  exact skipWsGo_all_ws _ t hall (Nat.le_refl _)

theorem next_eof_of_skip_none (t : Tokenizer) (h : (t._skip_whitespace).ch = none) :
    t.next_token = Except.ok (⟨.EOF, ""⟩, (t._skip_whitespace).read_char) ∧
      ((t._skip_whitespace).read_char).ch = none := by
  refine ⟨?_, read_char_none _ h⟩
  unfold Tokenizer.next_token
  simp only [h]

theorem callN_eof (n : Nat) : ∀ t : Tokenizer, (t._skip_whitespace).ch = none →
    ∃ t', Tokenizer.callN n t = Except.ok (⟨.EOF, ""⟩, t') ∧ t'.ch = none := by
  induction n with
  | zero =>
    intro t h
    exact ⟨_, (next_eof_of_skip_none t h).1, (next_eof_of_skip_none t h).2⟩
  | succ n ih =>
    intro t h
    obtain ⟨hnt, hch⟩ := next_eof_of_skip_none t h
    unfold Tokenizer.callN
    rw [hnt]
    exact ih _ (by rw [skip_of_none _ hch]; exact hch)

/-- C7: on an input that is empty or all whitespace, the first
`next_token` call returns the `EOF` token, and so does every later call. -/
theorem claim_C7 (s : String) (h : ∀ c ∈ s.data, c ∈ Tokenizer.WHITESPACES) (n : Nat) :
    ∃ t', Tokenizer.callN n (Tokenizer.init s.data) = Except.ok (⟨.EOF, ""⟩, t') ∧
      t'.ch = none :=
  callN_eof n (Tokenizer.init s.data) (ws_skip_none _ h)

/-- Witness for C7 on the concrete one-space input, third call. -/
theorem claim_C7_witness :
    (∀ c ∈ (" " : String).data, c ∈ Tokenizer.WHITESPACES) ∧
    ∃ t', Tokenizer.callN 2 (Tokenizer.init (" " : String).data) =
        Except.ok (⟨.EOF, ""⟩, t') ∧ t'.ch = none :=
  ⟨by decide, claim_C7 " " (by decide) 2⟩

theorem readIdentGo_err : ∀ (n : Nat) (t : Tokenizer) (e : PyErr),
    Tokenizer.readIdentGo n t = Except.error e → e = .valueError "ch is None" := by
  intro n
  induction n with
  | zero =>
    intro t e h
    injection h with h'
    exact h'.symm
  | succ n ih =>
    intro t e h
    unfold Tokenizer.readIdentGo at h
    split at h
    · injection h with h'
      exact h'.symm
    · split at h
      · exact ih _ _ h
      · cases h

theorem readNumGo_err : ∀ (n : Nat) (t : Tokenizer) (e : PyErr),
    Tokenizer.readNumGo n t = Except.error e → e = .valueError "ch is None" := by
  intro n
  induction n with
  | zero =>
    intro t e h
    injection h with h'
    exact h'.symm
  | succ n ih =>
    intro t e h
    unfold Tokenizer.readNumGo at h
    split at h
    · injection h with h'
      exact h'.symm
    · split at h
      · exact ih _ _ h
      · cases h

theorem read_identifier_err (t : Tokenizer) (e : PyErr)
    (h : t.read_identifier = Except.error e) : e = .valueError "ch is None" := by
  unfold Tokenizer.read_identifier at h
  split at h
  · injection h with h'
    subst h'
    exact readIdentGo_err _ _ _ (by assumption)
  · cases h

theorem read_number_err (t : Tokenizer) (e : PyErr)
    (h : t.read_number = Except.error e) : e = .valueError "ch is None" := by
  unfold Tokenizer.read_number at h
  split at h
  · injection h with h'
    subst h'
    exact readNumGo_err _ _ _ (by assumption)
  · cases h

theorem tok_err (t : Tokenizer) (e : PyErr) (h : t.next_token = Except.error e) :
    e = .valueError "ch is None" ∨
      e = .typeError "can only concatenate str (not NoneType) to str" := by
  unfold Tokenizer.next_token at h
  dsimp only at h
  repeat' split at h
  all_goals
    first
    | exact Except.noConfusion h
    | (injection h with h'
       subst h'
       first
       | exact Or.inr rfl
       | exact Or.inl rfl
       | exact Or.inl (read_identifier_err _ _ (by assumption))
       | exact Or.inl (read_number_err _ _ (by assumption)))

theorem tok_no_guard (t : Tokenizer) (e : PyErr) (h : t.next_token = Except.error e) :
    e ≠ guardCur ∧ e ≠ guardPeek := by
  rcases tok_err t e h with h' | h' <;> subst h' <;> exact ⟨by decide, by decide⟩

theorem pnext_ok (p p' : Parser) (h : p.next_token = Except.ok p') :
    p'.current_token = p.peek_token ∧ (∃ tok, p'.peek_token = some tok) := by
  unfold Parser.next_token at h
  split at h
  · cases h
  · cases h
    exact ⟨rfl, ⟨_, rfl⟩⟩

theorem pnext_err (p : Parser) (e : PyErr) (h : p.next_token = Except.error e) :
    e ≠ guardCur ∧ e ≠ guardPeek := by
  unfold Parser.next_token at h
  split at h
  · injection h with h'
    subst h'
    exact tok_no_guard _ _ (by assumption)
  · cases h

theorem primed_next (p p' : Parser) (hP : Primed p) (h : p.next_token = Except.ok p') :
    Primed p' := by
  obtain ⟨h1, tok, h2⟩ := pnext_ok p p' h
  constructor
  · rw [h1]
    exact hP.2
  · rw [h2]
    rfl

theorem expect_peek_ok (p : Parser) (tt : TokenType) (b : Bool) (p' : Parser)
    (hP : Primed p) (h : p.expect_peek tt = Except.ok (b, p')) : Primed p' := by
  unfold Parser.expect_peek at h
  split at h
  · cases h
  · split at h
    · split at h
      · cases h
      · cases h
        exact primed_next _ _ hP (by assumption)
    · cases h
      exact ⟨hP.1, hP.2⟩

theorem expect_peek_err (p : Parser) (tt : TokenType) (e : PyErr)
    (hpk : p.peek_token.isSome) (h : p.expect_peek tt = Except.error e) :
    e ≠ guardCur ∧ e ≠ guardPeek := by
  unfold Parser.expect_peek at h
  split at h
  · rename_i hnone
    rw [hnone] at hpk
    simp at hpk
  · split at h
    · split at h
      · injection h with h'
        subst h'
        exact pnext_err _ _ (by assumption)
      · cases h
    · cases h

theorem idmk_err (t : Token) (v : String) (e : PyErr)
    (h : Identifier.mk? t v = Except.error e) :
    e = .valueError "token.type is not TokenType.IDENT IDENT" := by
  unfold Identifier.mk? at h
  split at h
  · cases h
  · injection h with h'
    exact h'.symm

theorem intmk_err (t : Token) (v : Option Int) (e : PyErr)
    (h : IntegerLiteral.mk? t v = Except.error e) :
    e = .valueError "token.type is not TokenType.INT INT" := by
  unfold IntegerLiteral.mk? at h
  split at h
  · cases h
  · injection h with h'
    exact h'.symm

theorem letmk_err (t : Token) (name : Option Identifier) (value : Option Expression)
    (e : PyErr) (h : LetStatement.mk? t name value = Except.error e) :
    e = .valueError "token.literal is not TokenType.LET let" := by
  unfold LetStatement.mk? at h
  split at h
  · cases h
  · injection h with h'
    exact h'.symm

theorem retmk_err (t : Token) (e : PyErr) (h : ReturnStatement.mk? t = Except.error e) :
    e = .valueError "token.literal is not TokenType.RETURN return" := by
  unfold ReturnStatement.mk? at h
  split at h
  · cases h
  · injection h with h'
    exact h'.symm

theorem pid_err (p : Parser) (e : PyErr) (hc : p.current_token.isSome)
    (h : p.parse_identifier = Except.error e) : e ≠ guardCur ∧ e ≠ guardPeek := by
  unfold Parser.parse_identifier at h
  split at h
  · rename_i hnone
    rw [hnone] at hc
    simp at hc
  · split at h
    · rename_i e' heq
      injection h with h'
      subst h'
      rw [idmk_err _ _ _ heq]
      exact ⟨by decide, by decide⟩
    · cases h

theorem pil_err (p : Parser) (e : PyErr) (hc : p.current_token.isSome)
    (h : p.parse_integer_literal = Except.error e) : e ≠ guardCur ∧ e ≠ guardPeek := by
  unfold Parser.parse_integer_literal at h
  split at h
  · rename_i hnone
    rw [hnone] at hc
    simp at hc
  · split at h
    · rename_i e' heq
      injection h with h'
      subst h'
      rw [intmk_err _ _ _ heq]
      exact ⟨by decide, by decide⟩
    · split at h
      · cases h
      · injection h with h'
        subst h'
        exact ⟨by decide, by decide⟩

theorem pe_err (p : Parser) (prec : Precedence) (e : PyErr) (hc : p.current_token.isSome)
    (h : p.parse_expression prec = Except.error e) : e ≠ guardCur ∧ e ≠ guardPeek := by
  unfold Parser.parse_expression at h
  split at h
  · rename_i hnone
    rw [hnone] at hc
    simp at hc
  · split at h
    · cases h
    · split at h
      · injection h with h'
        subst h'
        exact pid_err _ _ hc (by assumption)
      · cases h
    · split at h
      · injection h with h'
        subst h'
        exact pil_err _ _ hc (by assumption)
      · cases h

theorem pes_ok (p : Parser) (sOpt : Option Statement) (p' : Parser) (hP : Primed p)
    (h : p.parse_expression_statement = Except.ok (sOpt, p')) : Primed p' := by
  unfold Parser.parse_expression_statement at h
  dsimp only at h
  split at h
  · cases h
  · rename_i eopt p1 heq
    have hp1 : p1 = p := parse_expression_state _ _ _ _ heq
    subst hp1
    split at h
    · cases h
    · split at h
      · split at h
        · cases h
        · cases h
          exact primed_next _ _ hP (by assumption)
      · cases h
        exact hP

theorem pes_err (p : Parser) (e : PyErr) (hP : Primed p)
    (h : p.parse_expression_statement = Except.error e) :
    e ≠ guardCur ∧ e ≠ guardPeek := by
  unfold Parser.parse_expression_statement at h
  dsimp only at h
  split at h
  · rename_i e' heq
    injection h with h'
    subst h'
    exact pe_err _ _ _ hP.1 heq
  · rename_i eopt p1 heq
    have hp1 : p1 = p := parse_expression_state _ _ _ _ heq
    subst hp1
    split at h
    · rename_i hnone
      have := hP.2
      rw [hnone] at this
      simp at this
    · split at h
      · split at h
        · rename_i e' heq2
          injection h with h'
          subst h'
          exact pnext_err _ _ heq2
        · cases h
      · cases h

theorem skip_ok (fuel : Nat) : ∀ p p' : Parser, Primed p →
    Parser.skip_to_semicolon fuel p = PRes.ok p' → Primed p' := by
  induction fuel with
  | zero =>
    intro p p' _ h
    cases h
  | succ fuel ih =>
    intro p p' hP h
    rw [skip_eq] at h
    unfold skipBody at h
    split at h
    · cases h
    · split at h
      · cases h
        exact hP
      · split at h
        · cases h
        · exact ih _ _ (primed_next _ _ hP (by assumption)) h

theorem skip_err (fuel : Nat) : ∀ (p : Parser) (e : PyErr),
    Parser.skip_to_semicolon fuel p = PRes.err e → e ≠ guardCur ∧ e ≠ guardPeek := by
  induction fuel with
  | zero =>
    intro p e h
    cases h
  | succ fuel ih =>
    intro p e h
    rw [skip_eq] at h
    unfold skipBody at h
    split at h
    · injection h with h'
      subst h'
      exact ⟨by decide, by decide⟩
    · split at h
      · cases h
      · split at h
        · rename_i e' heq
          injection h with h'
          subst h'
          exact pnext_err _ _ heq
        · exact ih _ _ h

theorem plet_ok (fuel : Nat) (p : Parser) (sOpt : Option Statement) (p' : Parser)
    (hP : Primed p) (h : Parser.parse_let_statement fuel p = PRes.ok (sOpt, p')) :
    Primed p' := by
  unfold Parser.parse_let_statement at h
  split at h
  · cases h
  · split at h
    · cases h
    · split at h
      · cases h
      · cases h
        exact expect_peek_ok _ _ _ _ hP (by assumption)
      · rename_i p1 heq1
        have hP1 : Primed p1 := expect_peek_ok _ _ _ _ hP heq1
        split at h
        · cases h
        · split at h
          · cases h
          · split at h
            · cases h
            · cases h
              exact expect_peek_ok _ _ _ _ hP1 (by assumption)
            · rename_i p2 heq2
              have hP2 : Primed p2 := expect_peek_ok _ _ _ _ hP1 heq2
              split at h
              · cases h
              · cases h
              · cases h
                exact skip_ok fuel _ _ hP2 (by assumption)

theorem plet_err (fuel : Nat) (p : Parser) (e : PyErr) (hP : Primed p)
    (h : Parser.parse_let_statement fuel p = PRes.err e) :
    e ≠ guardCur ∧ e ≠ guardPeek := by
  unfold Parser.parse_let_statement at h
  split at h
  · rename_i hnone
    have := hP.1
    rw [hnone] at this
    simp at this
  · split at h
    · rename_i e' heq
      injection h with h'
      subst h'
      rw [letmk_err _ _ _ _ heq]
      exact ⟨by decide, by decide⟩
    · split at h
      · rename_i e' heq
        injection h with h'
        subst h'
        exact expect_peek_err _ _ _ hP.2 heq
      · cases h
      · rename_i p1 heq1
        have hP1 : Primed p1 := expect_peek_ok _ _ _ _ hP heq1
        split at h
        · injection h with h'
          subst h'
          exact ⟨by decide, by decide⟩
        · split at h
          · rename_i e' heq
            injection h with h'
            subst h'
            rw [idmk_err _ _ _ heq]
            exact ⟨by decide, by decide⟩
          · split at h
            · rename_i e' heq
              injection h with h'
              subst h'
              exact expect_peek_err _ _ _ hP1.2 heq
            · cases h
            · rename_i p2 heq2
              have hP2 : Primed p2 := expect_peek_ok _ _ _ _ hP1 heq2
              split at h
              · cases h
              · rename_i e' heq
                injection h with h'
                subst h'
                exact skip_err fuel _ _ heq
              · cases h

theorem pret_ok (fuel : Nat) (p : Parser) (sOpt : Option Statement) (p' : Parser)
    (hP : Primed p) (h : Parser.parse_return_statement fuel p = PRes.ok (sOpt, p')) :
    Primed p' := by
  unfold Parser.parse_return_statement at h
  split at h
  · cases h
  · split at h
    · cases h
    · split at h
      · cases h
      · cases h
      · cases h
        exact skip_ok fuel _ _ hP (by assumption)

theorem pret_err (fuel : Nat) (p : Parser) (e : PyErr) (hP : Primed p)
    (h : Parser.parse_return_statement fuel p = PRes.err e) :
    e ≠ guardCur ∧ e ≠ guardPeek := by
  unfold Parser.parse_return_statement at h
  split at h
  · rename_i hnone
    have := hP.1
    rw [hnone] at this
    simp at this
  · split at h
    · rename_i e' heq
      injection h with h'
      subst h'
      rw [retmk_err _ _ heq]
      exact ⟨by decide, by decide⟩
    · split at h
      · cases h
      · rename_i e' heq
        injection h with h'
        subst h'
        exact skip_err fuel _ _ heq
      · cases h

theorem pstmt_ok (fuel : Nat) (p : Parser) (sOpt : Option Statement) (p' : Parser)
    (hP : Primed p) (h : Parser.parse_statement fuel p = PRes.ok (sOpt, p')) :
    Primed p' := by
  unfold Parser.parse_statement at h
  split at h
  · cases h
  · split at h
    · exact plet_ok fuel _ _ _ hP h
    · exact pret_ok fuel _ _ _ hP h
    · split at h
      · cases h
      · cases h
        exact pes_ok _ _ _ hP (by assumption)

theorem pstmt_err (fuel : Nat) (p : Parser) (e : PyErr) (hP : Primed p)
    (h : Parser.parse_statement fuel p = PRes.err e) :
    e ≠ guardCur ∧ e ≠ guardPeek := by
  unfold Parser.parse_statement at h
  split at h
  · rename_i hnone
    have := hP.1
    rw [hnone] at this
    simp at this
  · split at h
    · exact plet_err fuel _ _ hP h
    · exact pret_err fuel _ _ hP h
    · split at h
      · rename_i e' heq
        injection h with h'
        subst h'
        exact pes_err _ _ hP heq
      · cases h

theorem loop_no_guard (fuel : Nat) : ∀ (p : Parser) (prog : Program), Primed p →
    Parser.parse_program_loop fuel p prog ≠ PRes.err guardCur ∧
      Parser.parse_program_loop fuel p prog ≠ PRes.err guardPeek := by
  induction fuel with
  | zero =>
    intro p prog _
    exact ⟨fun h => PRes.noConfusion h, fun h => PRes.noConfusion h⟩
  | succ fuel ih =>
    intro p prog hP
    rw [loop_eq]
    unfold loopBody
    split
    · exact ⟨fun h => PRes.noConfusion h, fun h => PRes.noConfusion h⟩
    · cases hstmt : Parser.parse_statement fuel p with
      | diverge => exact ⟨fun h => PRes.noConfusion h, fun h => PRes.noConfusion h⟩
      | err e =>
        obtain ⟨h1, h2⟩ := pstmt_err fuel p e hP hstmt
        exact ⟨fun h => h1 (PRes.err.inj h), fun h => h2 (PRes.err.inj h)⟩
      | ok r =>
        obtain ⟨sOpt, p1⟩ := r
        have hP1 : Primed p1 := pstmt_ok fuel p sOpt p1 hP hstmt
        dsimp only
        cases hnext : p1.next_token with
        | error e =>
          obtain ⟨h1, h2⟩ := pnext_err p1 e hnext
          exact ⟨fun h => h1 (PRes.err.inj h), fun h => h2 (PRes.err.inj h)⟩
        | ok p2 =>
          exact ih p2 _ (primed_next p1 p2 hP1 hnext)

/-- C10 counterexample: the scanner does not always return a Token: on
the input `x` (ending inside an identifier run) the very first
`next_token` call raises `ValueError("ch is None")`. -/
theorem claim_C10_counterexample :
    Tokenizer.next_token (Tokenizer.init ("x".data)) =
      Except.error (.valueError "ch is None") := rfl

/-- C10 (amended): after a completed `Parser` construction both lookahead
slots are non-`None`, every `next_token` call that returns preserves
this, and from any such state `parse_program` never raises the internal
guards `ValueError("current_token is None")` or
`ValueError("peek_token is None")` (though the scanner itself may raise
`ValueError("ch is None")` mid-identifier at end of input). -/
theorem claim_C10 :
    (∀ tz p, Parser.init tz = Except.ok p → Primed p) ∧
    (∀ p p', Primed p → p.next_token = Except.ok p' → Primed p') ∧
    (∀ fuel (p : Parser) (prog : Program), Primed p →
      Parser.parse_program_loop fuel p prog ≠ PRes.err guardCur ∧
        Parser.parse_program_loop fuel p prog ≠ PRes.err guardPeek) := by
  refine ⟨?_, ?_, fun fuel p prog hP => loop_no_guard fuel p prog hP⟩
  · intro tz p h
    unfold Parser.init at h
    dsimp only at h
    split at h
    · cases h
    · rename_i p1 h1
      obtain ⟨-, tok1, hpk1⟩ := pnext_ok _ _ h1
      obtain ⟨hcur, tok2, hpk2⟩ := pnext_ok _ _ h
      constructor
      · rw [hcur, hpk1]
        rfl
      · rw [hpk2]
        rfl
  · intro p p' hP h
    exact primed_next p p' hP h

/-- Witness for C10 at the concrete input `;`. -/
theorem claim_C10_witness :
    Primed witState10 ∧
    Parser.parse_program_loop 5 witState10 ⟨[]⟩ ≠ PRes.err guardCur ∧
    Parser.parse_program_loop 5 witState10 ⟨[]⟩ ≠ PRes.err guardPeek :=
  ⟨claim_C10.1 (Tokenizer.init ((";").data)) witState10 rfl,
   claim_C10.2.2 5 witState10 ⟨[]⟩ (claim_C10.1 (Tokenizer.init ((";").data)) witState10 rfl)⟩

/-- Witness for C3 at the concrete fuel bound 7. -/
theorem claim_C3_witness :
    runOut 7 "5" = PRes.err (.valueError "ch is None") ∧
    runOut 7 "return )" = PRes.diverge :=
  ⟨claim_C3.1 7, claim_C3.2 7⟩

/-- Witness for C9 at the concrete tokens `Token(IDENT, "let")` and
`Token(LET, "let")`. -/
theorem claim_C9_witness :
    exOk (LetStatement.mk? ⟨.IDENT, "let"⟩ none none) = (("let" : String) == "let") ∧
    exOk (Identifier.mk? ⟨.LET, "let"⟩ "let") = (TokenType.LET == TokenType.IDENT) :=
  ⟨(claim_C9 ⟨.IDENT, "let"⟩).1 none none, (claim_C9 ⟨.LET, "let"⟩).2.2.1 "let"⟩
